import Mathlib

/-!
Shallow embedding of the `SpotifyJS` client class (src: the single class file
of the repository) together with the platform primitives it calls (`atob`,
`URLSearchParams` serialization) and the relevant behavior of its HTTP
transport (`axios`).  JavaScript `undefined` is modelled as `Option.none`;
a thrown exception as `Except.error`; the asynchronous transport as an
explicit function argument from wire-level requests to `Except` results.
-/

namespace SpotifyJS

/-! ## Platform base64 primitives -/

/-- The standard base64 alphabet, positions 0..63. -/
def base64Alphabet : List Char :=
  "ABCDEFGHIJKLMNOPQRSTUVWXYZabcdefghijklmnopqrstuvwxyz0123456789+/".toList

/-- Position of a character in the base64 alphabet, `none` if it is not in it. -/
def base64Index (c : Char) : Option Nat :=
  base64Alphabet.findIdx? (fun a => a == c)

/-- Whether a character belongs to the base64 alphabet. -/
def isBase64Char (c : Char) : Bool :=
  (base64Index c).isSome

/-- ASCII whitespace, removed by forgiving-base64 before decoding. -/
def isAsciiWhitespace (c : Char) : Bool :=
  c == ' ' || c == '\t' || c == '\n' || c == '\r' || c.toNat == 12

/-- Remove up to two trailing padding characters, as forgiving-base64 does
when the input length is a multiple of four. -/
def stripPadding (cs : List Char) : List Char :=
  if cs.reverse.take 2 = ['=', '='] then (cs.reverse.drop 2).reverse
  else if cs.reverse.take 1 = ['='] then (cs.reverse.drop 1).reverse
  else cs

/-- Convert a run of base64 sextets to the decoded bytes. -/
def sextetsToBytes : List Nat → List Nat
  | a :: b :: c :: d :: rest =>
      (a * 4 + b / 16) :: ((b % 16) * 16 + c / 4) :: ((c % 4) * 64 + d) ::
        sextetsToBytes rest
  | [a, b] => [a * 4 + b / 16]
  | [a, b, c] => [a * 4 + b / 16, (b % 16) * 16 + c / 4]
  | _ => []

/-- Forgiving-base64 preprocessing: remove ASCII whitespace, then remove
padding when the remaining length is a multiple of four. -/
def preprocessBase64 (input : String) : List Char :=
  if (input.toList.filter (fun c => !(isAsciiWhitespace c))).length % 4 == 0 then
    stripPadding (input.toList.filter (fun c => !(isAsciiWhitespace c)))
  else input.toList.filter (fun c => !(isAsciiWhitespace c))

/-- The platform global `atob`: forgiving-base64 DECODE per the WHATWG infra
standard (as implemented by browsers and by Node since v16).  Returns `none`
where the real function throws `InvalidCharacterError`, in particular whenever
the input contains a character outside the base64 alphabet such as `:`. -/
def atob (input : String) : Option String :=
  if (preprocessBase64 input).length % 4 == 1 then none
  else if (preprocessBase64 input).all isBase64Char then
    some (String.mk ((sextetsToBytes
      ((preprocessBase64 input).filterMap base64Index)).map Char.ofNat))
  else none

/-- Character at a given sextet position of the base64 alphabet. -/
def base64Char (n : Nat) : Char :=
  base64Alphabet.getD n 'A'

/-- Standard base64 ENCODING of a byte sequence, with padding. -/
def base64EncodeBytes : List Nat → List Char
  | a :: b :: c :: rest =>
      base64Char (a / 4) :: base64Char ((a % 4) * 16 + b / 16) ::
        base64Char ((b % 16) * 4 + c / 64) :: base64Char (c % 64) ::
        base64EncodeBytes rest
  | [a, b] => [base64Char (a / 4), base64Char ((a % 4) * 16 + b / 16),
      base64Char ((b % 16) * 4), '=']
  | [a] => [base64Char (a / 4), base64Char ((a % 4) * 16), '=', '=']
  | [] => []

/-- The platform global `btoa`: base64 encoding of a (latin1) string. -/
def btoa (s : String) : String :=
  String.mk (base64EncodeBytes (s.toList.map Char.toNat))

/-! ## URLSearchParams serialization -/

/-- UTF-8 encoding of one character as a byte list. -/
def utf8EncodeCharBytes (c : Char) : List Nat :=
  let n := c.toNat
  if n < 128 then [n]
  else if n < 2048 then [192 + n / 64, 128 + n % 64]
  else if n < 65536 then [224 + n / 4096, 128 + (n / 64) % 64, 128 + n % 64]
  else [240 + n / 262144, 128 + (n / 4096) % 64, 128 + (n / 64) % 64, 128 + n % 64]

/-- UTF-8 bytes of a string. -/
def utf8Bytes (s : String) : List Nat :=
  s.toList.flatMap utf8EncodeCharBytes

/-- Bytes kept verbatim by application/x-www-form-urlencoded serialization:
digits, ASCII letters, and `*`, `-`, `.`, `_`. -/
def isUrlSafeByte (b : Nat) : Bool :=
  (48 ≤ b && b ≤ 57) || (65 ≤ b && b ≤ 90) || (97 ≤ b && b ≤ 122) ||
    b == 42 || b == 45 || b == 46 || b == 95

/-- Uppercase hexadecimal digit. -/
def hexDigitChar (n : Nat) : Char :=
  "0123456789ABCDEF".toList.getD n '0'

/-- Percent-encode one component, as `URLSearchParams` serialization does:
space becomes `+`, safe bytes stay, everything else becomes `%XX`. -/
def formEncodeComponent (s : String) : String :=
  String.mk ((utf8Bytes s).flatMap (fun b =>
    if b == 32 then ['+']
    else if isUrlSafeByte b then [Char.ofNat b]
    else ['%', hexDigitChar (b / 16), hexDigitChar (b % 16)]))

/-- The `URLSearchParams.toString()` serialization of a list of pairs. -/
def formEncode (ps : List (String × String)) : String :=
  String.intercalate "&" (ps.map (fun p =>
    formEncodeComponent p.1 ++ "=" ++ formEncodeComponent p.2))

/-! ## URLSearchParams.sort: a stable insertion sort on keys, comparing
code points (our keys are ASCII, so this agrees with UTF-16 code units). -/

/-- Code-point lexicographic comparison of character lists (true iff le). -/
def charListLe : List Char → List Char → Bool
  | [], _ => true
  | _ :: _, [] => false
  | a :: as, b :: bs =>
    if a.toNat < b.toNat then true
    else if b.toNat < a.toNat then false
    else charListLe as bs

/-- Key comparison used by `URLSearchParams.sort()`. -/
def keyLe (p q : String × String) : Bool :=
  charListLe p.1.toList q.1.toList

/-- Stable insertion of one pair into a key-sorted list of pairs. -/
def insertPair (p : String × String) : List (String × String) → List (String × String)
  | [] => [p]
  | q :: rest => if keyLe p q then p :: q :: rest else q :: insertPair p rest

/-- The `URLSearchParams.sort()` operation: stable sort of the pairs by key. -/
def sortPairs : List (String × String) → List (String × String)
  | [] => []
  | p :: rest => insertPair p (sortPairs rest)

/-! ## Data model of the client -/

/-- JavaScript errors relevant to this client: the two `Error`s thrown by the
credential checks, the `InvalidCharacterError` thrown by `atob`, and any
error rejected by the HTTP transport. -/
inductive JsError where
  | configError (msg : String)
  | invalidCharacterError
  | transportError (msg : String)
deriving Repr, DecidableEq

/-- The decoded body of a token-endpoint reply (the fields the class reads
from its `RequestAccessTokenResponse`); a missing field is `none`. -/
structure TokenResponse where
  access_token : Option String
  refresh_token : Option String
deriving Repr, DecidableEq

/-- Value of one query parameter as passed to the transport config. -/
inductive JsValue where
  | str (s : String)
  | num (n : Nat)
deriving Repr, DecidableEq

/-- Value of one JSON body field. -/
inductive BodyValue where
  | str (s : String)
  | num (n : Nat)
  | arr (l : List String)
deriving Repr, DecidableEq

/-- A request body as the class passes it to the transport: either an
already-serialized form string or a JSON object with possibly-undefined
fields. -/
inductive ReqBody where
  | formStr (s : String)
  | jsonBody (fields : List (String × Option BodyValue))
deriving Repr, DecidableEq

/-- The config object the class hands to its axios instance. -/
structure ApiRequest where
  method : String
  url : String
  headers : List (String × String)
  params : List (String × Option JsValue)
  data : Option ReqBody
deriving Repr, DecidableEq

/-- A request body at wire level (after axios serialization dropped
undefined JSON fields). -/
inductive WireBody where
  | formStr (s : String)
  | jsonFields (fields : List (String × BodyValue))
deriving Repr, DecidableEq

/-- The request actually sent on the wire, after axios applied the default
Authorization header, resolved the base URL, and dropped undefined params. -/
structure WireRequest where
  method : String
  url : String
  authorization : Option String
  contentType : Option String
  query : List (String × String)
  body : Option WireBody
deriving Repr, DecidableEq

/-- Mutable state of a `SpotifyJS` instance: its credential fields plus the
default `Authorization` header stored on its axios instance.  `none` models
a JavaScript `undefined` field. -/
structure ClientState where
  clientId : String
  clientSecret : Option String
  accessToken : Option String
  refreshToken : Option String
  scope : Option String
  redirectUri : String
  authHeaderDefault : Option String
deriving Repr, DecidableEq

/-- The constructor's `ClientConfig` argument (required fields are plain). -/
structure ClientConfig where
  clientId : String
  clientSecret : Option String
  accessToken : String
  refreshToken : Option String
  scope : Option String
  redirectUri : String
deriving Repr, DecidableEq

/-- JavaScript truthiness of a possibly-undefined string: `undefined` and
the empty string are falsy. -/
def falsy : Option String → Bool
  | none => true
  | some s => s == ""

/-- Rendering of `Bearer ${this.accessToken}` - a template literal turns
`undefined` into the text "undefined". -/
def bearerString : Option String → String
  | some t => "Bearer " ++ t
  | none => "Bearer undefined"

/-- The `setAccessToken` method: stores the token and installs the bearer
header as the axios default Authorization header. -/
def setAccessToken (s : ClientState) (token : Option String) : ClientState :=
  { s with accessToken := token, authHeaderDefault := some (bearerString token) }

/-- The `setRefreshToken` method. -/
def setRefreshToken (s : ClientState) (token : Option String) : ClientState :=
  { s with refreshToken := token }

/-- The `getAccessToken` method. -/
def getAccessToken (s : ClientState) : Option String :=
  s.accessToken

/-- The `getRefreshToken` method. -/
def getRefreshToken (s : ClientState) : Option String :=
  s.refreshToken

/-- The constructor: copies the credential fields and then calls
`setAccessToken(config.accessToken)` on the fresh axios instance. -/
def mkClient (c : ClientConfig) : ClientState :=
  setAccessToken
    { clientId := c.clientId, clientSecret := c.clientSecret,
      accessToken := none, refreshToken := c.refreshToken,
      scope := c.scope, redirectUri := c.redirectUri,
      authHeaderDefault := none }
    (some c.accessToken)

/-- The axios base URL installed by the constructor. -/
def baseURL : String := "https://api.spotify.com/v1"

/-- The token endpoint used by both token-exchange methods. -/
def tokenEndpoint : String := "https://accounts.spotify.com/api/token"

/-- Resolution of a config url against the base URL, as axios does: an
absolute url is used as is, a relative one is appended to the base. -/
def resolveUrl (u : String) : String :=
  if u.startsWith "https://" || u.startsWith "http://" then u
  else baseURL ++ "/" ++ u

/-- First header of a given name in a config header list. -/
def lookupHeader (name : String) (hs : List (String × String)) : Option String :=
  (hs.find? (fun p => p.1 == name)).map Prod.snd

/-- Rendering of a defined query-parameter value by the axios params
serializer. -/
def renderJsValue : JsValue → String
  | JsValue.str s => s
  | JsValue.num n => toString n

/-- The request axios actually sends for a config: config headers win over
the instance defaults, the url is resolved against the base URL, `undefined`
params are dropped by the params serializer, and `undefined` JSON body
fields are dropped by JSON.stringify. -/
def sentRequest (s : ClientState) (r : ApiRequest) : WireRequest :=
  { method := r.method,
    url := resolveUrl r.url,
    authorization := (lookupHeader "Authorization" r.headers) <|> s.authHeaderDefault,
    contentType := lookupHeader "Content-Type" r.headers,
    query := r.params.filterMap (fun p => p.2.map (fun v => (p.1, renderJsValue v))),
    body := r.data.map (fun b =>
      match b with
      | ReqBody.formStr str => WireBody.formStr str
      | ReqBody.jsonBody fields =>
          WireBody.jsonFields (fields.filterMap (fun p =>
            p.2.map (fun v => (p.1, v))))) }

/-- Result of one dispatched request as the caller observes it: either the
decoded payload or, after the internal catch, the error itself as the
resolved value. -/
inductive Resolved (α : Type) where
  | payload (a : α)
  | err (e : JsError)
deriving Repr, DecidableEq

/-- The private `_makeApiRequest` method: sends the config through the axios
instance and resolves with `.data` on success; any rejection is caught and
the error object itself is returned as the resolved value. -/
def _makeApiRequest {α : Type} (s : ClientState)
    (transport : WireRequest → Except JsError α) (config : ApiRequest) :
    Resolved α :=
  match transport (sentRequest s config) with
  | Except.ok d => Resolved.payload d
  | Except.error e => Resolved.err e

/-! ## AuthFlow -/

/-- The optional argument of `generateAuthorizeUrl`. -/
structure AuthorizeOptions where
  state : Option String
  scope : Option String
  show_dialog : Option Bool
deriving Repr, DecidableEq

/-- JavaScript truthiness of a possibly-undefined boolean. -/
def truthyBool : Option Bool → Bool
  | none => false
  | some b => b

/-- The parameter list built by `generateAuthorizeUrl` before sorting: the
three required pairs in object order, then `state`, `scope` and
`show_dialog` appended when truthy (the appended `show_dialog` value is the
ternary of the source, which can only yield "true" under the guard). -/
def authorizeParamsUnsorted (s : ClientState) (o : AuthorizeOptions) :
    List (String × String) :=
  let p := [("client_id", s.clientId), ("response_type", "code"),
    ("redirect_uri", s.redirectUri)]
  let p := if falsy o.state then p else p ++ [("state", o.state.getD "")]
  let p := if falsy o.scope then p else p ++ [("scope", o.scope.getD "")]
  if truthyBool o.show_dialog then
    p ++ [("show_dialog", if truthyBool o.show_dialog then "true" else "false")]
  else p

/-- The parameter list of the authorize URL after `params.sort()`. -/
def authorizeParams (s : ClientState) (o : AuthorizeOptions) :
    List (String × String) :=
  sortPairs (authorizeParamsUnsorted s o)

/-- The `generateAuthorizeUrl` method: pure string construction, no
transport involved. -/
def generateAuthorizeUrl (s : ClientState) (o : AuthorizeOptions) : String :=
  "https://accounts.spotify.com/authorize?" ++ formEncode (authorizeParams s o)

/-- The Basic Authorization header both token-exchange methods construct:
the source interpolates `atob(this.clientId + ":" + this.clientSecret)`,
so the construction fails (throws) exactly when `atob` does. -/
def tokenAuthHeader (s : ClientState) : Option String :=
  (atob (s.clientId ++ ":" ++ s.clientSecret.getD "")).map
    (fun d => "Basic " ++ d)

/-- Reading `response.access_token` off a resolved value: on the error
object the property is `undefined`. -/
def Resolved.access_token : Resolved TokenResponse → Option String
  | Resolved.payload t => t.access_token
  | Resolved.err _ => none

/-- Reading `response.refresh_token` off a resolved value. -/
def Resolved.refresh_token : Resolved TokenResponse → Option String
  | Resolved.payload t => t.refresh_token
  | Resolved.err _ => none

/-- Decidable equality for `Except`, needed to decide equalities between
token-call outcomes. -/
instance {ε α : Type} [DecidableEq ε] [DecidableEq α] :
    DecidableEq (Except ε α) := fun a b =>
  match a, b with
  | Except.ok x, Except.ok y =>
      if h : x = y then isTrue (by rw [h])
      else isFalse (fun hc => h (by cases hc; rfl))
  | Except.ok _, Except.error _ => isFalse (fun hc => Except.noConfusion hc)
  | Except.error _, Except.ok _ => isFalse (fun hc => Except.noConfusion hc)
  | Except.error x, Except.error y =>
      if h : x = y then isTrue (by rw [h]) else
        isFalse (fun hc => h (by cases hc; rfl))

/-- Complete observable outcome of one token-exchange call: the value it
resolves with (or the error it throws, as `Except.error`), the client state
after the call, and the trace of requests that reached the transport. -/
structure TokenCallResult where
  outcome : Except JsError (Resolved TokenResponse)
  state : ClientState
  trace : List WireRequest
deriving Repr, DecidableEq

/-- The `requestAccessToken({code})` method.  Throws a configuration error
when `clientSecret` is falsy; otherwise everything runs inside its
try/catch: if the `atob` call in the header throws, the error is caught and
returned with the state untouched; otherwise the POST config is dispatched
through `_makeApiRequest` (which never rejects), `setAccessToken` and
`setRefreshToken` are called with the resolved value's token fields, and
the resolved value is returned. -/
def requestAccessToken (s : ClientState)
    (transport : WireRequest → Except JsError TokenResponse) (code : String) :
    TokenCallResult :=
  if falsy s.clientSecret then
    { outcome := Except.error (JsError.configError
        "Client secret must be set to request access token."),
      state := s, trace := [] }
  else
    match tokenAuthHeader s with
    | none =>
        { outcome := Except.ok (Resolved.err JsError.invalidCharacterError),
          state := s, trace := [] }
    | some auth =>
        let config : ApiRequest :=
          { method := "POST", url := tokenEndpoint,
            headers := [("Authorization", auth),
              ("Content-Type", "application/x-www-form-urlencoded")],
            params := [],
            data := some (ReqBody.formStr (formEncode
              [("grant_type", "authorization_code"), ("code", code),
               ("redirect_uri", s.redirectUri)])) }
        let response := _makeApiRequest s transport config
        let s2 := setRefreshToken (setAccessToken s response.access_token)
          response.refresh_token
        { outcome := Except.ok response, state := s2,
          trace := [sentRequest s config] }

/-- The `refreshAccessToken()` method.  Throws a configuration error when
`clientSecret` or `refreshToken` is falsy; there is no try/catch of its own,
so a throw from the `atob` call in the header propagates to the caller;
otherwise it returns the `_makeApiRequest` result directly - it never
writes `accessToken` or `refreshToken`. -/
def refreshAccessToken (s : ClientState)
    (transport : WireRequest → Except JsError TokenResponse) :
    TokenCallResult :=
  if falsy s.clientSecret then
    { outcome := Except.error (JsError.configError
        "Client secret must be set to refresh token"),
      state := s, trace := [] }
  else if falsy s.refreshToken then
    { outcome := Except.error (JsError.configError "Refresh token is not set"),
      state := s, trace := [] }
  else
    match tokenAuthHeader s with
    | none =>
        { outcome := Except.error JsError.invalidCharacterError,
          state := s, trace := [] }
    | some auth =>
        let config : ApiRequest :=
          { method := "POST", url := tokenEndpoint,
            headers := [("Authorization", auth),
              ("Content-Type", "application/x-www-form-urlencoded")],
            params := [],
            data := some (ReqBody.formStr (formEncode
              [("grant_type", "refresh_token"),
               ("refresh_token", s.refreshToken.getD "")])) }
        { outcome := Except.ok (_makeApiRequest s transport config),
          state := s, trace := [sentRequest s config] }

/-! ## EndpointMethods (each is a direct return of `_makeApiRequest` on a
config built from its parameter object; a representative set is embedded) -/

/-- Config built by `search` (`q` and `type` are required strings; `market`,
`limit` and `offset` are optional strings in the source). -/
def searchConfig (q type : String) (market limit offset : Option String) :
    ApiRequest :=
  { method := "GET", url := "search", headers := [],
    params := [("q", some (JsValue.str q)), ("type", some (JsValue.str type)),
      ("market", market.map JsValue.str), ("limit", limit.map JsValue.str),
      ("offset", offset.map JsValue.str)],
    data := none }

/-- The `search` method. -/
def search {α : Type} (s : ClientState)
    (transport : WireRequest → Except JsError α) (q type : String)
    (market limit offset : Option String) : Resolved α :=
  _makeApiRequest s transport (searchConfig q type market limit offset)

/-- Config built by `getAlbumTracks` (`limit` and `offset` are numbers). -/
def getAlbumTracksConfig (album_id : String)
    (market : Option String) (limit offset : Option Nat) : ApiRequest :=
  { method := "GET", url := "albums/" ++ album_id ++ "/tracks", headers := [],
    params := [("market", market.map JsValue.str),
      ("limit", limit.map JsValue.num), ("offset", offset.map JsValue.num)],
    data := none }

/-- The `getAlbumTracks` method. -/
def getAlbumTracks {α : Type} (s : ClientState)
    (transport : WireRequest → Except JsError α) (album_id : String)
    (market : Option String) (limit offset : Option Nat) : Resolved α :=
  _makeApiRequest s transport (getAlbumTracksConfig album_id market limit offset)

/-- Config built by `getCurrentUsersPlaylist`. -/
def getCurrentUsersPlaylistConfig (limit offset : Option Nat) : ApiRequest :=
  { method := "GET", url := "me/playlists", headers := [],
    params := [("limit", limit.map JsValue.num),
      ("offset", offset.map JsValue.num)],
    data := none }

/-- The `getCurrentUsersPlaylist` method. -/
def getCurrentUsersPlaylist {α : Type} (s : ClientState)
    (transport : WireRequest → Except JsError α) (limit offset : Option Nat) :
    Resolved α :=
  _makeApiRequest s transport (getCurrentUsersPlaylistConfig limit offset)

/-- Config built by `skipToNext`. -/
def skipToNextConfig (device_id : Option String) : ApiRequest :=
  { method := "POST", url := "me/player/next", headers := [],
    params := [("device_id", device_id.map JsValue.str)],
    data := none }

/-- The `skipToNext` method. -/
def skipToNext {α : Type} (s : ClientState)
    (transport : WireRequest → Except JsError α) (device_id : Option String) :
    Resolved α :=
  _makeApiRequest s transport (skipToNextConfig device_id)

/-- Config built by `startPlayback`: `device_id` goes to the query, the
other four fields form the JSON body (`offset` has type `any` in the
source and is modelled as an optional body value). -/
def startPlaybackConfig (device_id context_uri : Option String)
    (uris : Option (List String)) (offset : Option BodyValue)
    (position_ms : Option Nat) : ApiRequest :=
  { method := "PUT", url := "me/player/play", headers := [],
    params := [("device_id", device_id.map JsValue.str)],
    data := some (ReqBody.jsonBody
      [("context_uri", context_uri.map BodyValue.str),
       ("uris", uris.map BodyValue.arr),
       ("offset", offset),
       ("position_ms", position_ms.map BodyValue.num)]) }

/-- The `startPlayback` method. -/
def startPlayback {α : Type} (s : ClientState)
    (transport : WireRequest → Except JsError α)
    (device_id context_uri : Option String) (uris : Option (List String))
    (offset : Option BodyValue) (position_ms : Option Nat) : Resolved α :=
  _makeApiRequest s transport
    (startPlaybackConfig device_id context_uri uris offset position_ms)

/-- Config built by `getCurrentUserProfile`. -/
def getCurrentUserProfileConfig : ApiRequest :=
  { method := "GET", url := "me", headers := [], params := [], data := none }

/-- The `getCurrentUserProfile` method. -/
def getCurrentUserProfile {α : Type} (s : ClientState)
    (transport : WireRequest → Except JsError α) : Resolved α :=
  _makeApiRequest s transport getCurrentUserProfileConfig

/-- Modelled from the spec: the Authorization header the spec prescribes for
both token-endpoint calls, the string "Basic " followed by the base64
ENCODING of clientId:clientSecret.  The source instead base64-DECODES the
credentials via `atob`. -/
def specBasicAuthHeader (clientId clientSecret : String) : String :=
  "Basic " ++ btoa (clientId ++ ":" ++ clientSecret)

/-- A concrete fully-configured client used by the concrete-input theorems. -/
def demoClient : ClientState :=
  mkClient
    { clientId := "test", clientSecret := some "secret",
      accessToken := "old", refreshToken := some "r", scope := none,
      redirectUri := "uri" }

/-- A concrete client with no clientSecret. -/
def noSecretClient : ClientState :=
  mkClient
    { clientId := "test", clientSecret := none, accessToken := "old",
      refreshToken := some "r", scope := none, redirectUri := "uri" }

/-- A concrete client with a clientSecret but no refreshToken. -/
def noRefreshClient : ClientState :=
  mkClient
    { clientId := "test", clientSecret := some "secret",
      accessToken := "old", refreshToken := none, scope := none,
      redirectUri := "uri" }

/-- A transport stub that replies successfully with a fresh token pair. -/
def demoSuccessTransport : WireRequest → Except JsError TokenResponse :=
  fun _ => Except.ok { access_token := some "new", refresh_token := some "newr" }

/-- A transport stub that rejects every request. -/
def demoFailTransport : WireRequest → Except JsError TokenResponse :=
  fun _ => Except.error (JsError.transportError "network down")

/-! ## Helper lemmas -/

/-- Membership survives padding removal for any character other than `=`. -/
lemma mem_stripPadding {c : Char} {cs : List Char} (hc : c ≠ '=')
    (h : c ∈ cs) : c ∈ stripPadding cs := by
  have hrev : c ∈ cs.reverse := List.mem_reverse.mpr h
  unfold stripPadding
  by_cases h2 : cs.reverse.take 2 = ['=', '=']
  · rw [if_pos h2, List.mem_reverse]
    have hsplit := List.take_append_drop 2 cs.reverse
    rw [← hsplit] at hrev
    rcases List.mem_append.mp hrev with hl | hr
    · rw [h2] at hl
      simp [hc] at hl
    · exact hr
  · rw [if_neg h2]
    by_cases h1 : cs.reverse.take 1 = ['=']
    · rw [if_pos h1, List.mem_reverse]
      have hsplit := List.take_append_drop 1 cs.reverse
      rw [← hsplit] at hrev
      rcases List.mem_append.mp hrev with hl | hr
      · rw [h1] at hl
        simp [hc] at hl
      · exact hr
    · rw [if_neg h1]
      exact h

/-- Character lists: `toList` distributes over string append. -/
lemma toList_append (a b : String) : (a ++ b).toList = a.toList ++ b.toList := by
  cases a
  cases b
  rfl

/-- A string that contains a colon is rejected by `atob` (the real function
throws `InvalidCharacterError`): `:` is neither ASCII whitespace nor a
base64 character. -/
lemma atob_eq_none_of_colon_mem (s : String) (h : ':' ∈ s.toList) :
    atob s = none := by
  have h0 : ':' ∈ s.toList.filter (fun c => !(isAsciiWhitespace c)) :=
    List.mem_filter.mpr ⟨h, by decide⟩
  have h1 : ':' ∈ preprocessBase64 s := by
    unfold preprocessBase64
    by_cases hlen : ((s.toList.filter
        (fun c => !(isAsciiWhitespace c))).length % 4 == 0) = true
    · rw [if_pos hlen]
      exact mem_stripPadding (by decide) h0
    · rw [if_neg hlen]
      exact h0
  have hall : (preprocessBase64 s).all isBase64Char = false := by
    cases hb : (preprocessBase64 s).all isBase64Char
    · rfl
    · exact absurd ((List.all_eq_true.mp hb) ':' h1) (by decide)
  unfold atob
  by_cases hlen1 : ((preprocessBase64 s).length % 4 == 1) = true
  · rw [if_pos hlen1]
  · rw [if_neg hlen1, if_neg (by rw [hall]; exact Bool.false_ne_true)]

/-- The Basic header construction of both token-exchange methods always
fails: the argument of `atob` contains the `:` separator. -/
lemma tokenAuthHeader_eq_none (s : ClientState) : tokenAuthHeader s = none := by
  unfold tokenAuthHeader
  rw [atob_eq_none_of_colon_mem]
  · rfl
  · rw [toList_append, toList_append]
    exact List.mem_append.mpr (Or.inl (List.mem_append.mpr (Or.inr (by decide))))

/-- The key comparison is total. -/
lemma charListLe_total : ∀ a b : List Char,
    charListLe a b = true ∨ charListLe b a = true := by
  intro a
  induction a with
  | nil => intro b; left; rfl
  | cons x xs ih =>
    intro b
    cases b with
    | nil => right; rfl
    | cons y ys =>
      by_cases h1 : x.toNat < y.toNat
      · left
        simp [charListLe, h1]
      · by_cases h2 : y.toNat < x.toNat
        · right
          simp [charListLe, h1, h2]
        · rcases ih ys with h3 | h3
          · left
            simp [charListLe, h1, h2, h3]
          · right
            simp [charListLe, h1, h2, h3]

/-- The key comparison is transitive. -/
lemma charListLe_trans : ∀ a b c : List Char,
    charListLe a b = true → charListLe b c = true → charListLe a c = true := by
  intro a
  induction a with
  | nil => intro b c _ _; rfl
  | cons x xs ih =>
    intro b c hab hbc
    cases b with
    | nil => simp [charListLe] at hab
    | cons y ys =>
      cases c with
      | nil => simp [charListLe] at hbc
      | cons z zs =>
        simp only [charListLe] at hab hbc ⊢
        by_cases hxy : x.toNat < y.toNat
        · by_cases hyz : y.toNat < z.toNat
          · simp [Nat.lt_trans hxy hyz]
          · by_cases hzy : z.toNat < y.toNat
            · simp [hyz, hzy] at hbc
            · have hyzeq : y.toNat = z.toNat := Nat.le_antisymm
                (Nat.le_of_not_lt hzy) (Nat.le_of_not_lt hyz)
              simp [hyzeq ▸ hxy]
        · by_cases hyx : y.toNat < x.toNat
          · simp [hxy, hyx] at hab
          · have hxyeq : x.toNat = y.toNat := Nat.le_antisymm
              (Nat.le_of_not_lt hyx) (Nat.le_of_not_lt hxy)
            by_cases hyz : y.toNat < z.toNat
            · simp [hxyeq ▸ hyz]
            · by_cases hzy : z.toNat < y.toNat
              · simp [hyz, hzy] at hbc
              · simp [hxy, hyx] at hab
                simp [hyz, hzy] at hbc
                have hxz : ¬ x.toNat < z.toNat := hxyeq ▸ hyz
                have hzx : ¬ z.toNat < x.toNat := hxyeq ▸ hzy
                simp [hxz, hzx]
                exact ih ys zs hab hbc

/-- Membership in an insertion. -/
lemma mem_insertPair {x p : String × String} {l : List (String × String)} :
    x ∈ insertPair p l ↔ x = p ∨ x ∈ l := by
  induction l with
  | nil => simp [insertPair]
  | cons q rest ih =>
    unfold insertPair
    split
    · simp
    · simp only [List.mem_cons, ih]
      tauto

/-- Insertion preserves key-sortedness. -/
lemma pairwise_insertPair {p : String × String} {l : List (String × String)}
    (h : l.Pairwise (fun a b => keyLe a b = true)) :
    (insertPair p l).Pairwise (fun a b => keyLe a b = true) := by
  induction l with
  | nil => simp [insertPair]
  | cons q rest ih =>
    rcases List.pairwise_cons.mp h with ⟨hq, hrest⟩
    unfold insertPair
    split
    case _ hpq =>
      refine List.pairwise_cons.mpr ⟨?_, h⟩
      intro x hx
      rcases List.mem_cons.mp hx with rfl | hx'
      · exact hpq
      · exact charListLe_trans _ _ _ hpq (hq x hx')
    case _ hpq =>
      refine List.pairwise_cons.mpr ⟨?_, ih hrest⟩
      intro x hx
      rcases mem_insertPair.mp hx with h1 | hx'
      · rw [h1]
        rcases charListLe_total p.1.toList q.1.toList with h2 | h2
        · exact absurd h2 hpq
        · exact h2
      · exact hq x hx'

/-- The result of `sortPairs` is key-sorted. -/
lemma pairwise_sortPairs (l : List (String × String)) :
    (sortPairs l).Pairwise (fun a b => keyLe a b = true) := by
  induction l with
  | nil => exact List.Pairwise.nil
  | cons p rest ih => exact pairwise_insertPair ih

/-- Sorting does not change the set of pairs. -/
lemma mem_sortPairs {x : String × String} {l : List (String × String)} :
    x ∈ sortPairs l ↔ x ∈ l := by
  induction l with
  | nil => simp [sortPairs]
  | cons p rest ih =>
    unfold sortPairs
    rw [mem_insertPair]
    simp [ih]

/-- Characterization of the pairs collected by `generateAuthorizeUrl`
before sorting. -/
lemma mem_authorizeParamsUnsorted {x : String × String} {s : ClientState}
    {o : AuthorizeOptions} :
    x ∈ authorizeParamsUnsorted s o ↔
      (x = ("client_id", s.clientId) ∨ x = ("response_type", "code")
        ∨ x = ("redirect_uri", s.redirectUri)
        ∨ (falsy o.state = false ∧ x = ("state", o.state.getD ""))
        ∨ (falsy o.scope = false ∧ x = ("scope", o.scope.getD ""))
        ∨ (truthyBool o.show_dialog = true ∧ x = ("show_dialog", "true"))) := by
  unfold authorizeParamsUnsorted
  by_cases h1 : falsy o.state <;> by_cases h2 : falsy o.scope <;>
    by_cases h3 : truthyBool o.show_dialog <;>
      simp [h1, h2, h3]

/-! ## Claim theorems -/

/-- Claim C8: for a client constructed with clientId "test" and redirectUri
"test", `generateAuthorizeUrl` with no options returns exactly the expected
string.  The embedding of `generateAuthorizeUrl` is a pure function of the
client state with no transport argument, so no network call is involved. -/
theorem c8_default_authorize_url_exact :
    generateAuthorizeUrl
      (mkClient
        { clientId := "test", clientSecret := none, accessToken := "tok",
          refreshToken := none, scope := none, redirectUri := "test" })
      { state := none, scope := none, show_dialog := none }
    = "https://accounts.spotify.com/authorize?client_id=test&redirect_uri=test&response_type=code" := by
  rfl

/-- Claim C2 (code bug): the source builds the token-endpoint Authorization
header with `atob` (base64 DECODE) instead of `btoa` (base64 ENCODE).  For
clientId "test" and clientSecret "secret" the header construction used by
both `requestAccessToken` and `refreshAccessToken` fails (`atob` throws
`InvalidCharacterError` on the `:` separator, giving `none` here), while
the header the claim and spec prescribe is "Basic dGVzdDpzZWNyZXQ=". -/
theorem c2_basic_auth_header_uses_atob_not_btoa :
    tokenAuthHeader demoClient = none
    ∧ specBasicAuthHeader "test" "secret" = "Basic dGVzdDpzZWNyZXQ=" := by
  exact ⟨rfl, rfl⟩

/-- Claim C1 (code bug): with clientSecret and refreshToken both set and a
transport that would reply successfully with a fresh token pair,
`refreshAccessToken` throws `InvalidCharacterError` (from the `atob`
misuse) before any request reaches the transport, and the stored
accessToken and refreshToken keep their prior values - the method contains
no `setAccessToken` or `setRefreshToken` call at all, so the claimed update
never happens. -/
theorem c1_refresh_never_updates_stored_tokens :
    refreshAccessToken demoClient demoSuccessTransport
      = { outcome := Except.error JsError.invalidCharacterError,
          state := demoClient, trace := [] }
    ∧ getAccessToken demoClient = some "old"
    ∧ getRefreshToken demoClient = some "r" := by
  exact ⟨rfl, rfl, rfl⟩

/-- Claim C5 (code bug): with clientSecret set and a transport that would
reply successfully with a fresh token pair, `requestAccessToken` resolves
with the caught `InvalidCharacterError` from the `atob` misuse; the
transport is never invoked, the stored tokens keep their prior values, and
a subsequent `search` call still sends the OLD bearer header. -/
theorem c5_request_token_never_reaches_transport :
    requestAccessToken demoClient demoSuccessTransport "authcode"
      = { outcome := Except.ok (Resolved.err JsError.invalidCharacterError),
          state := demoClient, trace := [] }
    ∧ getAccessToken
        (requestAccessToken demoClient demoSuccessTransport "authcode").state
      = some "old"
    ∧ getRefreshToken
        (requestAccessToken demoClient demoSuccessTransport "authcode").state
      = some "r"
    ∧ (sentRequest
        (requestAccessToken demoClient demoSuccessTransport "authcode").state
        (searchConfig "q" "artist" none none none)).authorization
      = some "Bearer old" := by
  exact ⟨rfl, rfl, rfl, rfl⟩

/-- Claim C6 counterexample: with clientSecret set and a transport that
rejects every request, `requestAccessToken` leaves the client state exactly
unchanged - the stored accessToken is still "old" (not overwritten with
undefined), the default header is still "Bearer old" (not
"Bearer undefined"), and the transport was invoked zero times - refuting
the claimed non-atomic overwrite. -/
theorem c6_counterexample_state_is_unchanged :
    (requestAccessToken demoClient demoFailTransport "authcode").state
      = demoClient
    ∧ (requestAccessToken demoClient demoFailTransport "authcode").state.accessToken
      = some "old"
    ∧ (requestAccessToken demoClient demoFailTransport "authcode").state.authHeaderDefault
      = some "Bearer old"
    ∧ (requestAccessToken demoClient demoFailTransport "authcode").trace = [] := by
  exact ⟨rfl, rfl, rfl, rfl⟩

/-- Claim C6 amended: past the credential check, `requestAccessToken` never
invokes the transport at all (the `atob` call in the header construction
always throws, because its argument contains the `:` separator); the caught
error is returned as the resolved value and the client state is left
completely unchanged, so no overwrite with undefined ever occurs. -/
theorem c6_request_token_always_caught_before_transport
    (s : ClientState) (transport : WireRequest → Except JsError TokenResponse)
    (code : String) (h : falsy s.clientSecret = false) :
    requestAccessToken s transport code
      = { outcome := Except.ok (Resolved.err JsError.invalidCharacterError),
          state := s, trace := [] } := by
  unfold requestAccessToken
  rw [tokenAuthHeader_eq_none]
  simp [h]

/-- Witness for the amended C6 at a concrete client and transport. -/
theorem c6_witness :
    requestAccessToken demoClient demoFailTransport "authcode"
      = { outcome := Except.ok (Resolved.err JsError.invalidCharacterError),
          state := demoClient, trace := [] } :=
  c6_request_token_always_caught_before_transport demoClient demoFailTransport
    "authcode" rfl

/-- Claim C3: transport errors are returned, not thrown.  (1) The dispatcher
`_makeApiRequest` resolves with the error itself whenever the transport
rejects; (2) hence `search` (like every endpoint method, each of which is a
direct return of `_makeApiRequest`) resolves with the error; (3) past its
credential check `requestAccessToken` never throws - every path resolves;
(4) `refreshAccessToken` never throws a transport error: its only throws
are its credential checks and the header construction. -/
theorem c3_transport_errors_returned_not_thrown :
    (∀ (α : Type) (s : ClientState) (transport : WireRequest → Except JsError α)
        (config : ApiRequest) (e : JsError),
      transport (sentRequest s config) = Except.error e →
      _makeApiRequest s transport config = Resolved.err e)
    ∧ (∀ (α : Type) (s : ClientState) (transport : WireRequest → Except JsError α)
        (q type : String) (market limit offset : Option String) (e : JsError),
      transport (sentRequest s (searchConfig q type market limit offset))
          = Except.error e →
      search s transport q type market limit offset = Resolved.err e)
    ∧ (∀ (s : ClientState) (transport : WireRequest → Except JsError TokenResponse)
        (code : String), falsy s.clientSecret = false →
      ∀ e : JsError,
        (requestAccessToken s transport code).outcome ≠ Except.error e)
    ∧ (∀ (s : ClientState) (transport : WireRequest → Except JsError TokenResponse)
        (msg : String),
      (refreshAccessToken s transport).outcome
        ≠ Except.error (JsError.transportError msg)) := by
  refine ⟨?_, ?_, ?_, ?_⟩
  · intro α s transport config e h
    unfold _makeApiRequest
    rw [h]
  · intro α s transport q type market limit offset e h
    unfold search _makeApiRequest
    rw [h]
  · intro s transport code h e
    unfold requestAccessToken
    rw [tokenAuthHeader_eq_none]
    simp [h]
  · intro s transport msg
    unfold refreshAccessToken
    by_cases h1 : falsy s.clientSecret
    · simp [h1]
    · by_cases h2 : falsy s.refreshToken
      · simp [h1, h2]
      · rw [tokenAuthHeader_eq_none]
        simp [h1, h2]

/-- Witness for C3 at concrete inputs: a rejecting transport's error comes
back as the resolved value of the dispatcher and of `search`, and neither
token method throws it. -/
theorem c3_witness :
    _makeApiRequest demoClient demoFailTransport
        (searchConfig "a" "artist" none none none)
      = Resolved.err (JsError.transportError "network down")
    ∧ search demoClient demoFailTransport "a" "artist" none none none
      = Resolved.err (JsError.transportError "network down")
    ∧ (requestAccessToken demoClient demoFailTransport "c").outcome
      ≠ Except.error (JsError.transportError "network down")
    ∧ (refreshAccessToken demoClient demoFailTransport).outcome
      ≠ Except.error (JsError.transportError "network down") :=
  ⟨c3_transport_errors_returned_not_thrown.1 TokenResponse demoClient
      demoFailTransport (searchConfig "a" "artist" none none none)
      (JsError.transportError "network down") rfl,
   c3_transport_errors_returned_not_thrown.2.1 TokenResponse demoClient
      demoFailTransport "a" "artist" none none none
      (JsError.transportError "network down") rfl,
   c3_transport_errors_returned_not_thrown.2.2.1 demoClient demoFailTransport
      "c" rfl (JsError.transportError "network down"),
   c3_transport_errors_returned_not_thrown.2.2.2 demoClient demoFailTransport
      "network down"⟩

/-- Claim C4: a falsy clientSecret makes `requestAccessToken` (and
`refreshAccessToken`) throw a configuration error synchronously, and a set
clientSecret with a falsy refreshToken makes `refreshAccessToken` do the
same; in each case the transport is invoked zero times (empty trace) and
the client state - in particular every stored credential field - is
unchanged. -/
theorem c4_config_errors_thrown_before_network :
    (∀ (s : ClientState) (transport : WireRequest → Except JsError TokenResponse)
        (code : String), falsy s.clientSecret = true →
      requestAccessToken s transport code
        = { outcome := Except.error (JsError.configError
              "Client secret must be set to request access token."),
            state := s, trace := [] })
    ∧ (∀ (s : ClientState) (transport : WireRequest → Except JsError TokenResponse),
        falsy s.clientSecret = true →
      refreshAccessToken s transport
        = { outcome := Except.error (JsError.configError
              "Client secret must be set to refresh token"),
            state := s, trace := [] })
    ∧ (∀ (s : ClientState) (transport : WireRequest → Except JsError TokenResponse),
        falsy s.clientSecret = false → falsy s.refreshToken = true →
      refreshAccessToken s transport
        = { outcome := Except.error (JsError.configError "Refresh token is not set"),
            state := s, trace := [] }) := by
  refine ⟨?_, ?_, ?_⟩
  · intro s transport code h
    unfold requestAccessToken
    rw [if_pos h]
  · intro s transport h
    unfold refreshAccessToken
    rw [if_pos h]
  · intro s transport h1 h2
    unfold refreshAccessToken
    rw [if_neg (by rw [h1]; exact Bool.false_ne_true), if_pos h2]

/-- Witness for C4 at concrete clients missing a clientSecret or a
refreshToken. -/
theorem c4_witness :
    requestAccessToken noSecretClient demoSuccessTransport "c"
      = { outcome := Except.error (JsError.configError
            "Client secret must be set to request access token."),
          state := noSecretClient, trace := [] }
    ∧ refreshAccessToken noSecretClient demoSuccessTransport
      = { outcome := Except.error (JsError.configError
            "Client secret must be set to refresh token"),
          state := noSecretClient, trace := [] }
    ∧ refreshAccessToken noRefreshClient demoSuccessTransport
      = { outcome := Except.error (JsError.configError "Refresh token is not set"),
          state := noRefreshClient, trace := [] } :=
  ⟨c4_config_errors_thrown_before_network.1 noSecretClient demoSuccessTransport
      "c" rfl,
   c4_config_errors_thrown_before_network.2.1 noSecretClient
      demoSuccessTransport rfl,
   c4_config_errors_thrown_before_network.2.2 noRefreshClient
      demoSuccessTransport rfl rfl⟩

/-- Claim C7 counterexample: with all three options set the authorize URL
carries SIX query parameters - the six keys the claim itself enumerates -
not five as the claim counts them. -/
theorem c7_counterexample_six_not_five :
    (authorizeParams demoClient
        { state := some "s", scope := some "sc", show_dialog := some true }).map
        Prod.fst
      = ["client_id", "redirect_uri", "response_type", "scope",
         "show_dialog", "state"]
    ∧ ((authorizeParams demoClient
        { state := some "s", scope := some "sc", show_dialog := some true }).length
        = 5 → False) := by
  exact ⟨rfl, by decide⟩

/-- Claim C7 amended: for every combination of the optional arguments the
query keys of `generateAuthorizeUrl` appear in sorted (code-point
alphabetical) order, and with all three options set (show_dialog true) the
URL contains exactly the SIX parameters client_id, redirect_uri,
response_type, scope, show_dialog, state in that alphabetical key order. -/
theorem c7_authorize_url_keys_sorted :
    (∀ (s : ClientState) (o : AuthorizeOptions),
      ((authorizeParams s o).map Prod.fst).Pairwise
        (fun a b => charListLe a.toList b.toList = true))
    ∧ (∀ (s : ClientState) (st sc : String), st ≠ "" → sc ≠ "" →
      (authorizeParams s
          { state := some st, scope := some sc, show_dialog := some true }).map
          Prod.fst
        = ["client_id", "redirect_uri", "response_type", "scope",
           "show_dialog", "state"])
    ∧ (∀ (s : ClientState) (o : AuthorizeOptions),
      generateAuthorizeUrl s o
        = "https://accounts.spotify.com/authorize?"
            ++ formEncode (authorizeParams s o)) := by
  refine ⟨?_, ?_, ?_⟩
  · intro s o
    exact List.Pairwise.map Prod.fst (fun a b hab => hab)
      (pairwise_sortPairs (authorizeParamsUnsorted s o))
  · intro s st sc hst hsc
    have h1 : falsy (some st) = false := by simp [falsy, hst]
    have h2 : falsy (some sc) = false := by simp [falsy, hsc]
    show (sortPairs (authorizeParamsUnsorted s
      { state := some st, scope := some sc, show_dialog := some true })).map
        Prod.fst = _
    unfold authorizeParamsUnsorted
    rw [h1, h2]
    rfl
  · intro s o
    rfl

/-- Witness for the amended C7 at a concrete client and options. -/
theorem c7_witness :
    (authorizeParams demoClient
        { state := some "s", scope := some "sc", show_dialog := some true }).map
        Prod.fst
      = ["client_id", "redirect_uri", "response_type", "scope",
         "show_dialog", "state"] :=
  c7_authorize_url_keys_sorted.2.1 demoClient "s" "sc" (by decide) (by decide)

/-- Claim C9: optional parameters passed as undefined are absent from the
outgoing request.  For each embedded endpoint method, the wire-level query
(after the axios params serializer) contains exactly the defined
parameters, and the JSON body of `startPlayback` drops undefined fields -
nothing is ever serialized as the literal string "undefined". -/
theorem c9_undefined_params_absent_from_wire :
    (∀ (s : ClientState) (q type : String),
      (sentRequest s (searchConfig q type none none none)).query
        = [("q", q), ("type", type)])
    ∧ (∀ (s : ClientState) (q type m : String),
      (sentRequest s (searchConfig q type (some m) none none)).query
        = [("q", q), ("type", type), ("market", m)])
    ∧ (∀ (s : ClientState) (album_id : String),
      (sentRequest s (getAlbumTracksConfig album_id none none none)).query = [])
    ∧ (∀ s : ClientState,
      (sentRequest s (getCurrentUsersPlaylistConfig none none)).query = [])
    ∧ (∀ s : ClientState, (sentRequest s (skipToNextConfig none)).query = [])
    ∧ (∀ s : ClientState,
      (sentRequest s (startPlaybackConfig none none none none none)).query = []
      ∧ (sentRequest s (startPlaybackConfig none none none none none)).body
        = some (WireBody.jsonFields []))
    ∧ (∀ (s : ClientState) (c : String) (p : Nat),
      (sentRequest s (startPlaybackConfig none (some c) none none (some p))).body
        = some (WireBody.jsonFields
            [("context_uri", BodyValue.str c),
             ("position_ms", BodyValue.num p)])) :=
  ⟨fun _ _ _ => rfl, fun _ _ _ _ => rfl, fun _ _ => rfl, fun _ => rfl,
   fun _ => rfl, fun _ => ⟨rfl, rfl⟩, fun _ _ _ => rfl⟩

/-- Claim C10: `generateAuthorizeUrl` includes an optional parameter only
when it is truthy - show_dialog false, an empty state, or an empty scope is
omitted entirely - and a show_dialog pair can only carry the value
"true". -/
theorem c10_only_truthy_options_included :
    (∀ (s : ClientState) (o : AuthorizeOptions), o.show_dialog = some false →
      "show_dialog" ∉ (authorizeParams s o).map Prod.fst)
    ∧ (∀ (s : ClientState) (o : AuthorizeOptions), o.state = some "" →
      "state" ∉ (authorizeParams s o).map Prod.fst)
    ∧ (∀ (s : ClientState) (o : AuthorizeOptions), o.scope = some "" →
      "scope" ∉ (authorizeParams s o).map Prod.fst)
    ∧ (∀ (s : ClientState) (o : AuthorizeOptions) (v : String),
      ("show_dialog", v) ∈ authorizeParams s o → v = "true") := by
  refine ⟨?_, ?_, ?_, ?_⟩
  · intro s o h hmem
    rcases List.mem_map.mp hmem with ⟨p, hp, hfst⟩
    rcases mem_authorizeParamsUnsorted.mp (mem_sortPairs.mp hp) with
      h1 | h1 | h1 | ⟨_, h1⟩ | ⟨_, h1⟩ | ⟨h2, h1⟩
    · rw [h1] at hfst; simp at hfst
    · rw [h1] at hfst; simp at hfst
    · rw [h1] at hfst; simp at hfst
    · rw [h1] at hfst; simp at hfst
    · rw [h1] at hfst; simp at hfst
    · rw [h] at h2; simp [truthyBool] at h2
  · intro s o h hmem
    rcases List.mem_map.mp hmem with ⟨p, hp, hfst⟩
    rcases mem_authorizeParamsUnsorted.mp (mem_sortPairs.mp hp) with
      h1 | h1 | h1 | ⟨h2, h1⟩ | ⟨_, h1⟩ | ⟨_, h1⟩
    · rw [h1] at hfst; simp at hfst
    · rw [h1] at hfst; simp at hfst
    · rw [h1] at hfst; simp at hfst
    · rw [h] at h2; simp [falsy] at h2
    · rw [h1] at hfst; simp at hfst
    · rw [h1] at hfst; simp at hfst
  · intro s o h hmem
    rcases List.mem_map.mp hmem with ⟨p, hp, hfst⟩
    rcases mem_authorizeParamsUnsorted.mp (mem_sortPairs.mp hp) with
      h1 | h1 | h1 | ⟨_, h1⟩ | ⟨h2, h1⟩ | ⟨_, h1⟩
    · rw [h1] at hfst; simp at hfst
    · rw [h1] at hfst; simp at hfst
    · rw [h1] at hfst; simp at hfst
    · rw [h1] at hfst; simp at hfst
    · rw [h] at h2; simp [falsy] at h2
    · rw [h1] at hfst; simp at hfst
  · intro s o v hmem
    rcases mem_authorizeParamsUnsorted.mp (mem_sortPairs.mp hmem) with
      h1 | h1 | h1 | ⟨_, h1⟩ | ⟨_, h1⟩ | ⟨_, h1⟩
    · simp at h1
    · simp at h1
    · simp at h1
    · simp at h1
    · simp at h1
    · exact congrArg Prod.snd h1

/-- Witness for C10 at a concrete client: all-falsy options omit the three
optional parameters, and with show_dialog true the emitted value is
"true". -/
theorem c10_witness :
    "show_dialog" ∉ (authorizeParams demoClient
        { state := some "", scope := some "", show_dialog := some false }).map
        Prod.fst
    ∧ "state" ∉ (authorizeParams demoClient
        { state := some "", scope := some "", show_dialog := some false }).map
        Prod.fst
    ∧ "scope" ∉ (authorizeParams demoClient
        { state := some "", scope := some "", show_dialog := some false }).map
        Prod.fst
    ∧ "true" = "true" :=
  ⟨c10_only_truthy_options_included.1 demoClient
      { state := some "", scope := some "", show_dialog := some false } rfl,
   c10_only_truthy_options_included.2.1 demoClient
      { state := some "", scope := some "", show_dialog := some false } rfl,
   c10_only_truthy_options_included.2.2.1 demoClient
      { state := some "", scope := some "", show_dialog := some false } rfl,
   c10_only_truthy_options_included.2.2.2 demoClient
      { state := none, scope := none, show_dialog := some true } "true"
      (by decide)⟩

end SpotifyJS
